import Mathlib

/-!
# Column Reconciliation Engine — verification development

Shallow embedding of the column-mapping logic of the `ayni_fe` front end:
the schema registry and validator from `src/types/columnSchema.ts`, and the
suggestion resolver / mapping-state operations of the `ColumnMapping`
React component (`src/components/Upload/ColumnMapping.tsx`).
-/

namespace Ayni

/-- The closed set of system columns (`SystemColumn` union type in
`columnSchema.ts`). -/
inductive SystemColumn where
  | in_dt
  | in_trans_id
  | in_product_id
  | in_quantity
  | in_price_total
  | in_trans_type
  | in_customer_id
  | in_description
  | in_category
  | in_unit_type
  | in_stock
  | in_cost_unit
  | in_cost_total
  | in_price_unit
  | in_discount_total
  | in_commission_total
  | in_margin
deriving DecidableEq, Repr

/-- `ColumnSpec` from `columnSchema.ts`: `optional`/`inferable` are 0/1 flags. -/
structure ColumnSpec where
  optional : Nat
  inferable : Nat
  description : String
  dtype : String
deriving DecidableEq, Repr

/-- The `COLUMN_SCHEMA` record, one `ColumnSpec` per system column. -/
def COLUMN_SCHEMA : SystemColumn → ColumnSpec
  | .in_dt => ⟨0, 0, "Transaction datetime", "datetime64[ns]"⟩
  | .in_trans_id => ⟨0, 0, "Unique transaction identifier", "object"⟩
  | .in_product_id => ⟨0, 0, "Product identifier", "object"⟩
  | .in_quantity => ⟨0, 0, "Quantity of items in transaction", "float64"⟩
  | .in_price_total => ⟨0, 0, "Total price/revenue for transaction", "float64"⟩
  | .in_trans_type => ⟨1, 0, "Transaction type (sale, return, etc.)", "object"⟩
  | .in_customer_id => ⟨1, 0, "Customer identifier", "object"⟩
  | .in_description => ⟨1, 0, "Product description", "object"⟩
  | .in_category => ⟨1, 0, "Product category", "object"⟩
  | .in_unit_type => ⟨1, 0, "Unit of measure (kg, unit, liter, etc.)", "object"⟩
  | .in_stock => ⟨1, 0, "Current stock level", "float64"⟩
  | .in_cost_unit => ⟨1, 1, "Cost per unit (can be inferred from cost_total/quantity)", "float64"⟩
  | .in_cost_total => ⟨1, 1, "Total cost (can be inferred from cost_unit * quantity)", "float64"⟩
  | .in_price_unit => ⟨1, 1, "Price per unit (can be inferred from price_total/quantity)", "float64"⟩
  | .in_discount_total => ⟨1, 1, "Total discount amount (can be inferred)", "float64"⟩
  | .in_commission_total => ⟨1, 1, "Total commission amount (can be inferred)", "float64"⟩
  | .in_margin => ⟨1, 1, "Profit margin (can be inferred from price and cost)", "float64"⟩

/-- Insertion order of the keys of the `COLUMN_SCHEMA` object literal:
`Object.entries` enumerates string keys in this order. -/
def schemaOrder : List SystemColumn :=
  [.in_dt, .in_trans_id, .in_product_id, .in_quantity, .in_price_total,
   .in_trans_type, .in_customer_id, .in_description, .in_category,
   .in_unit_type, .in_stock,
   .in_cost_unit, .in_cost_total, .in_price_unit, .in_discount_total,
   .in_commission_total, .in_margin]

/-- `getRequiredColumns`: schema entries with `optional === 0`, in registry order. -/
def getRequiredColumns : List SystemColumn :=
  schemaOrder.filter (fun col => (COLUMN_SCHEMA col).optional == 0)

/-- `getOptionalColumns`: schema entries with `optional === 1`, in registry order. -/
def getOptionalColumns : List SystemColumn :=
  schemaOrder.filter (fun col => (COLUMN_SCHEMA col).optional == 1)

/-- `getInferableColumns`: schema entries with `inferable === 1`, in registry order. -/
def getInferableColumns : List SystemColumn :=
  schemaOrder.filter (fun col => (COLUMN_SCHEMA col).inferable == 1)

/-- One mapping entry (`ColumnMapping` interface): a CSV column name and the
system column it is mapped to, if any (`null` in the source is `none` here). -/
structure ColumnMapping where
  csvColumn : String
  systemColumn : Option SystemColumn
deriving DecidableEq, Repr

/-- The result shape of `validateMappings`. -/
structure ValidationResult where
  valid : Bool
  missingRequired : List SystemColumn
deriving DecidableEq, Repr

/-- `validateMappings` from `columnSchema.ts`: collect the non-null targets,
then keep the required columns not among them; `valid` iff none are missing. -/
def validateMappings (mappings : List ColumnMapping) : ValidationResult :=
  let requiredColumns := getRequiredColumns
  let mappedSystemColumns :=
    (mappings.filter (fun m => m.systemColumn.isSome)).filterMap (fun m => m.systemColumn)
  let missingRequired :=
    requiredColumns.filter (fun col => !(mappedSystemColumns.contains col))
  { valid := missingRequired.length == 0, missingRequired := missingRequired }

/-- The characters removed by the `replace(/[_\s-]/g, '')` step of the
suggestion resolver: underscore, hyphen, and the JavaScript `\s` class. -/
def isSeparatorChar (c : Char) : Bool :=
  c == '_' || c == '-' ||
  c == ' ' || c == '\t' || c == '\n' || c == '\r' ||
  c.toNat == 0x0b || c.toNat == 0x0c ||
  c.toNat == 0xa0 || c.toNat == 0x1680 ||
  (0x2000 ≤ c.toNat && c.toNat ≤ 0x200a) ||
  c.toNat == 0x2028 || c.toNat == 0x2029 || c.toNat == 0x202f ||
  c.toNat == 0x205f || c.toNat == 0x3000 || c.toNat == 0xfeff

/-- The normalization step of `suggestMapping`:
`csvColumn.toLowerCase().replace(/[_\s-]/g, '')` — lower-case every character,
then drop separators. -/
def normalize (s : String) : String :=
  ⟨(s.data.map Char.toLower).filter (fun c => !(isSeparatorChar c))⟩

/-- The fixed synonym table of `suggestMapping` (`suggestions` object literal),
in source order; keys are already normalized. -/
def suggestions : List (String × SystemColumn) :=
  [("date", .in_dt), ("datetime", .in_dt), ("fecha", .in_dt),
   ("transactionid", .in_trans_id), ("transid", .in_trans_id),
   ("idtransaccion", .in_trans_id),
   ("productid", .in_product_id), ("producto", .in_product_id),
   ("idproducto", .in_product_id),
   ("quantity", .in_quantity), ("cantidad", .in_quantity), ("qty", .in_quantity),
   ("price", .in_price_total), ("pricetotal", .in_price_total),
   ("total", .in_price_total), ("precio", .in_price_total),
   ("revenue", .in_price_total),
   ("customer", .in_customer_id), ("customerid", .in_customer_id),
   ("cliente", .in_customer_id),
   ("description", .in_description), ("descripcion", .in_description),
   ("category", .in_category), ("categoria", .in_category),
   ("cost", .in_cost_total), ("costtotal", .in_cost_total),
   ("costo", .in_cost_total),
   ("stock", .in_stock), ("inventory", .in_stock), ("inventario", .in_stock),
   ("margin", .in_margin), ("margen", .in_margin),
   ("discount", .in_discount_total), ("descuento", .in_discount_total)]

/-- `suggestMapping`: normalize, then exact lookup in the synonym table
(`suggestions[normalized] || null`), restricted to the table's own keys — the
common case, in which the JavaScript expression behaves as an exact
association-list lookup. See `suggestLookupJs` for the full property-access
semantics including the prototype chain. -/
def suggestMapping (csvColumn : String) : Option SystemColumn :=
  suggestions.lookup (normalize csvColumn)

/-- The value of the JavaScript expression `suggestions[normalized] || null`:
either one of the table's own values, or the inherited (truthy, non-column)
`Object.prototype.constructor`, or null. -/
inductive JsSuggestResult where
  | value (c : SystemColumn)
  | inherited
  | nullValue
deriving DecidableEq, Repr

/-- `suggestions[normalized] || null` with full JavaScript property-access
semantics. An own key of the object literal yields its table value. On a miss,
property access falls through to `Object.prototype`; a normalized string is
all-lowercase and separator-free, and the only own property name of
`Object.prototype` of that shape is `constructor` (`__proto__` and the
remaining names contain underscores or upper-case letters), so the input
normalizing to "constructor" yields the inherited, truthy
`Object.prototype.constructor` — which `||` passes through instead of null.
Every other miss is `undefined`, which `|| null` turns into null. -/
def suggestLookupJs (csvColumn : String) : JsSuggestResult :=
  let normalized := normalize csvColumn
  match suggestions.lookup normalized with
  | some c => JsSuggestResult.value c
  | none =>
    if normalized == "constructor" then JsSuggestResult.inherited
    else JsSuggestResult.nullValue

/-- The mapping state reached after mount, composing the `useState` initializer
with the auto-suggest `useEffect`. If `initialMappings` is present and
non-empty the initializer returns it and the effect (whose guard
`!initialMappings` is false) leaves it; if present but empty (`![]` is false in
JavaScript) the initializer's null-target mappings survive; if absent, the
effect overwrites the initializer's output with per-column suggestions. -/
def initMappings (csvColumns : List String)
    (initialMappings : Option (List ColumnMapping)) : List ColumnMapping :=
  match initialMappings with
  | some seed =>
      if 0 < seed.length then seed
      else csvColumns.map (fun col => ⟨col, none⟩)
  | none => csvColumns.map (fun col => ⟨col, suggestMapping col⟩)

/-- `handleMappingChange`: rewrite the entry (entries) whose `csvColumn`
matches, leaving the rest untouched. -/
def setMapping (mappings : List ColumnMapping) (csvColumn : String)
    (systemColumn : Option SystemColumn) : List ColumnMapping :=
  mappings.map (fun m =>
    if m.csvColumn == csvColumn then { m with systemColumn := systemColumn } else m)

/-- `getMappedCsvColumn`: first entry mapped to the given system column;
`mapping?.csvColumn || null` also yields `null` when the found name is the
empty string (falsy in JavaScript). -/
def getMappedCsvColumn (mappings : List ColumnMapping)
    (systemColumn : SystemColumn) : Option String :=
  match mappings.find? (fun m => m.systemColumn == some systemColumn) with
  | some m => if m.csvColumn == "" then none else some m.csvColumn
  | none => none

/-- The remove-button behavior for a system column: the button is rendered only
when `getMappedCsvColumn` is truthy, and clicking it runs
`handleMappingChange(mappedCsvColumn, null)`. -/
def removeMapping (mappings : List ColumnMapping)
    (systemColumn : SystemColumn) : List ColumnMapping :=
  match getMappedCsvColumn mappings systemColumn with
  | some csvColumn => setMapping mappings csvColumn none
  | none => mappings

/-- A user action on the mapping state: a select-box change
(`handleMappingChange`) or a remove-button click. -/
inductive MappingOp where
  | set (csvColumn : String) (target : Option SystemColumn)
  | remove (systemColumn : SystemColumn)

/-- Apply one user action to the state. -/
def applyOp (state : List ColumnMapping) : MappingOp → List ColumnMapping
  | .set c t => setMapping state c t
  | .remove x => removeMapping state x

/-- Apply a sequence of user actions, left to right. -/
def applyOps (ops : List MappingOp) (state : List ColumnMapping) : List ColumnMapping :=
  ops.foldl applyOp state

/-- 100 distinct source-column names, none of which matches any synonym
(Scenario D input). -/
def cols100 : List String :=
  (List.range 100).map (fun i => "col" ++ toString i)

/-!
## Helper lemmas
-/

/-- `Char.ofNat` round-trips through `toNat` at valid code points. -/
theorem toNat_ofNat_of_isValidChar (n : Nat) (h : n.isValidChar) :
    (Char.ofNat n).toNat = n := by
  unfold Char.ofNat
  rw [dif_pos h]
  rfl

/-- `Char.toLower` unfolded to its conditional form. -/
theorem toLower_eq (c : Char) :
    c.toLower = if c.toNat ≥ 65 ∧ c.toNat ≤ 90 then Char.ofNat (c.toNat + 32) else c := rfl

/-- ASCII lower-casing is idempotent on every character. -/
theorem toLower_toLower (c : Char) : c.toLower.toLower = c.toLower := by
  rw [toLower_eq c]
  by_cases h : c.toNat ≥ 65 ∧ c.toNat ≤ 90
  · rw [if_pos h, toLower_eq,
      toNat_ofNat_of_isValidChar _ (Or.inl (by omega)), if_neg (by omega)]
  · rw [if_neg h, toLower_eq, if_neg h]

/-- A list of characters fixed by `Char.toLower` is fixed by mapping it. -/
theorem map_toLower_eq_self {l : List Char} (h : ∀ c ∈ l, c.toLower = c) :
    l.map Char.toLower = l := by
  rw [List.map_congr_left h]
  exact List.map_id l

/-- Normalization is idempotent. -/
theorem normalize_idem (s : String) : normalize (normalize s) = normalize s := by
  have key : ∀ l : List Char,
      ((((l.map Char.toLower).filter (fun c => !(isSeparatorChar c))).map
          Char.toLower).filter (fun c => !(isSeparatorChar c)))
        = (l.map Char.toLower).filter (fun c => !(isSeparatorChar c)) := by
    intro l
    have h1 : ((l.map Char.toLower).filter (fun c => !(isSeparatorChar c))).map
        Char.toLower = (l.map Char.toLower).filter (fun c => !(isSeparatorChar c)) := by
      apply map_toLower_eq_self
      intro c hc
      obtain ⟨a, _, rfl⟩ := List.mem_map.mp (List.mem_filter.mp hc).1
      exact toLower_toLower a
    have h2 : ((l.map Char.toLower).filter (fun c => !(isSeparatorChar c))).filter
        (fun c => !(isSeparatorChar c))
        = (l.map Char.toLower).filter (fun c => !(isSeparatorChar c)) :=
      List.filter_eq_self.mpr (fun a ha => (List.mem_filter.mp ha).2)
    rw [h1, h2]
  exact congrArg String.mk (key s.data)

/-- Membership in the mapped-system-columns list computed by `validateMappings`
is existence of an entry with that non-null target. -/
theorem mem_mappedSystemColumns (mappings : List ColumnMapping) (c : SystemColumn) :
    ((mappings.filter (fun m => m.systemColumn.isSome)).filterMap
      (fun m => m.systemColumn)).contains c = true
      ↔ ∃ m ∈ mappings, m.systemColumn = some c := by
  constructor
  · intro h
    have hmem : c ∈ (mappings.filter (fun m => m.systemColumn.isSome)).filterMap
        (fun m => m.systemColumn) := by simpa using h
    obtain ⟨m, hm, hsc⟩ := List.mem_filterMap.mp hmem
    exact ⟨m, (List.mem_filter.mp hm).1, hsc⟩
  · rintro ⟨m, hm, hsc⟩
    have hmem : c ∈ (mappings.filter (fun m => m.systemColumn.isSome)).filterMap
        (fun m => m.systemColumn) :=
      List.mem_filterMap.mpr ⟨m, List.mem_filter.mpr ⟨hm, by simp [hsc]⟩, hsc⟩
    simpa using hmem

/-- The source-column projection of a freshly suggested state is the input. -/
theorem initMappings_none_proj (csvColumns : List String) :
    (initMappings csvColumns none).map ColumnMapping.csvColumn = csvColumns := by
  simp only [initMappings, List.map_map]
  exact (List.map_congr_left (fun a _ => rfl)).trans (List.map_id _)

/-- `setMapping` never changes any entry's source-column name. -/
theorem setMapping_csvColumn_proj (state : List ColumnMapping) (s : String)
    (t : Option SystemColumn) :
    (setMapping state s t).map ColumnMapping.csvColumn
      = state.map ColumnMapping.csvColumn := by
  simp only [setMapping, List.map_map]
  apply List.map_congr_left
  intro m _
  simp only [Function.comp_apply]
  by_cases h : (m.csvColumn == s) = true
  · rw [if_pos h]
  · rw [if_neg h]

/-- `removeMapping` never changes any entry's source-column name. -/
theorem removeMapping_csvColumn_proj (state : List ColumnMapping)
    (X : SystemColumn) :
    (removeMapping state X).map ColumnMapping.csvColumn
      = state.map ColumnMapping.csvColumn := by
  cases h : getMappedCsvColumn state X with
  | none => simp only [removeMapping, h]
  | some c =>
    simp only [removeMapping, h]
    exact setMapping_csvColumn_proj state c none

/-- A whole run of user actions never changes the source-column sequence. -/
theorem applyOps_csvColumn_proj (ops : List MappingOp) (state : List ColumnMapping) :
    (applyOps ops state).map ColumnMapping.csvColumn
      = state.map ColumnMapping.csvColumn := by
  induction ops generalizing state with
  | nil => rfl
  | cons op rest ih =>
    cases op with
    | set c t => exact (ih (setMapping state c t)).trans (setMapping_csvColumn_proj state c t)
    | remove x => exact (ih (removeMapping state x)).trans (removeMapping_csvColumn_proj state x)

/-- Two distinct members of a list force its length to be at least two. -/
theorem two_le_length_of_mem_of_mem {α : Type} {a b : α} {l : List α}
    (ha : a ∈ l) (hb : b ∈ l) (hne : a ≠ b) : 2 ≤ l.length := by
  induction l with
  | nil => cases ha
  | cons x xs ih =>
    cases List.mem_cons.mp ha with
    | inl h1 =>
      cases List.mem_cons.mp hb with
      | inl h2 => exact absurd (h1.trans h2.symm) hne
      | inr h2 =>
        have hx : 1 ≤ xs.length := List.length_pos.mpr (List.ne_nil_of_mem h2)
        simp only [List.length_cons]
        omega
    | inr h1 =>
      have hx : 1 ≤ xs.length := List.length_pos.mpr (List.ne_nil_of_mem h1)
      simp only [List.length_cons]
      omega

/-- A required column with no entry targeting it is reported missing. -/
theorem mem_missingRequired_of_unmapped (mappings : List ColumnMapping)
    (X : SystemColumn) (hreq : X ∈ getRequiredColumns)
    (h : ∀ m ∈ mappings, m.systemColumn ≠ some X) :
    X ∈ (validateMappings mappings).missingRequired := by
  have hmiss : (validateMappings mappings).missingRequired =
      getRequiredColumns.filter (fun c =>
        !(((mappings.filter (fun m => m.systemColumn.isSome)).filterMap
          (fun m => m.systemColumn)).contains c)) := rfl
  rw [hmiss]
  apply List.mem_filter.mpr
  refine ⟨hreq, ?_⟩
  have hfalse : (((mappings.filter (fun m => m.systemColumn.isSome)).filterMap
      (fun m => m.systemColumn)).contains X) = false := by
    apply Bool.eq_false_iff.mpr
    intro hcon
    obtain ⟨m, hm, hsc⟩ := (mem_mappedSystemColumns mappings X).mp hcon
    exact h m hm hsc
  rw [hfalse]
  rfl

/-- The second component of a successful association-list lookup is among the
stored values. -/
theorem mem_snd_of_lookup_eq_some {l : List (String × SystemColumn)} {k : String}
    {v : SystemColumn} (h : l.lookup k = some v) : v ∈ l.map Prod.snd := by
  induction l with
  | nil => cases h
  | cons p rest ih =>
    obtain ⟨pk, pv⟩ := p
    cases hk : (k == pk) with
    | true =>
      have heq : ((pk, pv) :: rest).lookup k = some pv := by
        simp [List.lookup, hk]
      rw [heq] at h
      rw [List.map_cons]
      exact (Option.some_inj.mp h) ▸ List.mem_cons_self _ _
    | false =>
      have heq : ((pk, pv) :: rest).lookup k = rest.lookup k := by
        simp [List.lookup, hk]
      rw [heq] at h
      rw [List.map_cons]
      exact List.mem_cons_of_mem _ (ih h)

/-!
## Claim theorems
-/

/-- C5: the suggestion resolver is pure and deterministic — evaluating it twice
on the same string gives the same result — and normalization (lower-casing then
removing spaces, underscores and hyphens) is idempotent on every string. -/
theorem C5_suggest_pure_normalize_idem :
    (∀ s : String, suggestMapping s = suggestMapping s) ∧
    (∀ s : String, normalize (normalize s) = normalize s) :=
  ⟨fun _ => rfl, normalize_idem⟩

/-- C1 (counterexample): on the Scenario A input the resolver does not behave
as claimed — "id_transaccion" and "producto" are not left unmapped (the synonym
table contains `idtransaccion` and `producto`), and "precio_total" normalizes
to `preciototal`, which has no table entry, so it maps to nothing. -/
theorem C1_counterexample :
    ¬ (suggestMapping "fecha" = some SystemColumn.in_dt ∧
       suggestMapping "cantidad" = some SystemColumn.in_quantity ∧
       suggestMapping "precio_total" = some SystemColumn.in_price_total ∧
       suggestMapping "id_transaccion" = none ∧
       suggestMapping "producto" = none ∧
       suggestMapping "cliente" = some SystemColumn.in_customer_id) := by
  decide

/-- C1 (amended): on input
`["fecha","id_transaccion","producto","cantidad","precio_total","cliente"]`
with no seed, the resolver maps "fecha" to `in_dt`, "id_transaccion" to
`in_trans_id`, "producto" to `in_product_id`, "cantidad" to `in_quantity`,
leaves "precio_total" unmapped, and maps "cliente" to `in_customer_id`. -/
theorem C1_scenarioA :
    suggestMapping "fecha" = some SystemColumn.in_dt ∧
    suggestMapping "id_transaccion" = some SystemColumn.in_trans_id ∧
    suggestMapping "producto" = some SystemColumn.in_product_id ∧
    suggestMapping "cantidad" = some SystemColumn.in_quantity ∧
    suggestMapping "precio_total" = none ∧
    suggestMapping "cliente" = some SystemColumn.in_customer_id := by
  decide

/-- C2: `validate` returns `valid = true` iff every id in the required list
appears as the non-null target of some entry; `missingRequired` is exactly the
required ids with no non-null mapping, in registry order; and with nothing
mapped, `valid` is false and `missingRequired` is all 5 required ids in
registry order. -/
theorem C2_validator_completeness (mappings : List ColumnMapping) :
    ((validateMappings mappings).valid = true ↔
      ∀ c ∈ getRequiredColumns, ∃ m ∈ mappings, m.systemColumn = some c) ∧
    ((validateMappings mappings).missingRequired =
      getRequiredColumns.filter
        (fun c => !(mappings.any (fun m => m.systemColumn == some c)))) ∧
    ((∀ m ∈ mappings, m.systemColumn = none) →
      (validateMappings mappings).valid = false ∧
      (validateMappings mappings).missingRequired =
        [SystemColumn.in_dt, SystemColumn.in_trans_id, SystemColumn.in_product_id,
         SystemColumn.in_quantity, SystemColumn.in_price_total]) := by
  have hmiss : (validateMappings mappings).missingRequired =
      getRequiredColumns.filter (fun c =>
        !(((mappings.filter (fun m => m.systemColumn.isSome)).filterMap
          (fun m => m.systemColumn)).contains c)) := rfl
  have hvalid : (validateMappings mappings).valid =
      ((validateMappings mappings).missingRequired.length == 0) := rfl
  have hpt : ∀ c ∈ getRequiredColumns,
      (!(((mappings.filter (fun m => m.systemColumn.isSome)).filterMap
        (fun m => m.systemColumn)).contains c))
      = (!(mappings.any (fun m => m.systemColumn == some c))) := by
    intro c _
    have hc : (((mappings.filter (fun m => m.systemColumn.isSome)).filterMap
        (fun m => m.systemColumn)).contains c)
        = (mappings.any (fun m => m.systemColumn == some c)) := by
      rw [Bool.eq_iff_iff, mem_mappedSystemColumns]
      simp [List.any_eq_true]
    rw [hc]
  have hmiss2 : (validateMappings mappings).missingRequired =
      getRequiredColumns.filter
        (fun c => !(mappings.any (fun m => m.systemColumn == some c))) := by
    rw [hmiss]
    exact List.filter_congr hpt
  refine ⟨?_, hmiss2, ?_⟩
  · rw [hvalid, hmiss2]
    simp [beq_iff_eq, List.length_eq_zero, List.filter_eq_nil_iff,
      List.any_eq_true]
  · intro h
    have hany : ∀ c : SystemColumn,
        mappings.any (fun m => m.systemColumn == some c) = false := by
      intro c
      rw [List.any_eq_false]
      intro m hm
      simp [h m hm]
    have hall : (validateMappings mappings).missingRequired = getRequiredColumns := by
      rw [hmiss2]
      apply List.filter_eq_self.mpr
      intro a _
      rw [hany a]
      rfl
    refine ⟨?_, ?_⟩
    · rw [hvalid, hall]
      decide
    · rw [hall]
      decide

/-- C2 witness: on the single-entry unmapped state, validation fails and all
five required columns are reported missing in registry order. -/
theorem C2_witness :
    (validateMappings [⟨"a", none⟩]).valid = false ∧
    (validateMappings [⟨"a", none⟩]).missingRequired =
      [SystemColumn.in_dt, SystemColumn.in_trans_id, SystemColumn.in_product_id,
       SystemColumn.in_quantity, SystemColumn.in_price_total] :=
  (C2_validator_completeness [⟨"a", none⟩]).2.2 (by decide)

/-- C3 (counterexample): with a provided-but-empty seed, the state is not the
suggestion resolver's output — "fecha" keeps a null target even though the
resolver suggests `in_dt` (the auto-suggest effect's guard `!initialMappings`
is false on an empty array). -/
theorem C3_counterexample :
    ¬ (initMappings ["fecha"] (some []) =
        [⟨"fecha", suggestMapping "fecha"⟩]) := by
  decide

/-- C3 (amended): a provided non-empty seed is used verbatim; a provided but
empty seed yields one mapping per source column with a null target; an absent
seed yields one mapping per source column carrying the resolver's suggestion,
preserving input order. -/
theorem C3_initMappings (csvColumns : List String) (seed : List ColumnMapping) :
    (0 < seed.length → initMappings csvColumns (some seed) = seed) ∧
    initMappings csvColumns (some []) = csvColumns.map (fun c => ⟨c, none⟩) ∧
    initMappings csvColumns none = csvColumns.map (fun c => ⟨c, suggestMapping c⟩) := by
  refine ⟨?_, ?_, rfl⟩
  · intro h
    simp [initMappings, h]
  · simp [initMappings]

/-- C3 witness: a non-empty seed is returned verbatim even when it does not
match the source columns. -/
theorem C3_witness :
    initMappings ["a"] (some [⟨"b", none⟩]) = [⟨"b", none⟩] :=
  (C3_initMappings ["a"] [⟨"b", none⟩]).1 (by decide)

/-- C4 (counterexample): with a non-empty seed the result is the seed, whose
length can differ from the input source-column sequence — here 1 mapping for 0
source columns. -/
theorem C4_counterexample :
    ¬ ((initMappings [] (some [⟨"a", some SystemColumn.in_dt⟩])).length
        = ([] : List String).length) := by
  decide

/-- C4 (amended): when no seed is provided (and likewise for a provided but
empty seed), the mapping sequence has the same length and order as the input —
its source-column projection is the input sequence — and if no input column
matches any synonym, every produced mapping has a null target, in input
order. -/
theorem C4_init_order (csvColumns : List String) :
    (initMappings csvColumns none).map ColumnMapping.csvColumn = csvColumns ∧
    (initMappings csvColumns none).length = csvColumns.length ∧
    (initMappings csvColumns (some [])).map ColumnMapping.csvColumn = csvColumns ∧
    ((∀ c ∈ csvColumns, suggestMapping c = none) →
      initMappings csvColumns none = csvColumns.map (fun c => ⟨c, none⟩)) := by
  refine ⟨initMappings_none_proj csvColumns, ?_, ?_, ?_⟩
  · simp [initMappings]
  · simp only [initMappings, Nat.lt_irrefl, if_false, List.length_nil, List.map_map]
    exact (List.map_congr_left (fun a _ => rfl)).trans (List.map_id _)
  · intro h
    simp only [initMappings]
    exact List.map_congr_left (fun c hc => by rw [h c hc])

/-- C4 witness: Scenario D — 100 distinct source columns, none matching any
synonym, produce 100 mappings all with a null target, in original order. -/
theorem C4_witness :
    initMappings cols100 none = cols100.map (fun c => ⟨c, none⟩) ∧
    (initMappings cols100 none).length = 100 :=
  ⟨(C4_init_order cols100).2.2.2 (by decide),
   ((C4_init_order cols100).2.1).trans (by decide)⟩

/-- C6: `setMapping` preserves length; every position whose entry names a
different source column is unchanged; every position whose entry names the
given source column gets the new target; and no uniqueness check is performed —
assigning a target already held by another entry succeeds and leaves duplicate
targets in the raw state. -/
theorem C6_setMapping_frame (state : List ColumnMapping) (s : String)
    (t : Option SystemColumn) :
    (setMapping state s t).length = state.length ∧
    (∀ (i : Nat) (m : ColumnMapping), state[i]? = some m → m.csvColumn ≠ s →
      (setMapping state s t)[i]? = some m) ∧
    (∀ (i : Nat) (m : ColumnMapping), state[i]? = some m → m.csvColumn = s →
      (setMapping state s t)[i]? = some ⟨s, t⟩) ∧
    setMapping [⟨"a", some SystemColumn.in_dt⟩, ⟨"b", none⟩] "b"
        (some SystemColumn.in_dt)
      = [⟨"a", some SystemColumn.in_dt⟩, ⟨"b", some SystemColumn.in_dt⟩] := by
  refine ⟨List.length_map state _, ?_, ?_, by decide⟩
  · intro i m hm hne
    rw [setMapping, List.getElem?_map, hm]
    simp only [Option.map_some']
    rw [if_neg (by simpa using hne)]
  · intro i m hm heq
    rw [setMapping, List.getElem?_map, hm]
    simp only [Option.map_some']
    rw [if_pos (by simpa using heq), heq]

/-- C6 witness: an entry for a different source column is untouched by
`setMapping`. -/
theorem C6_witness :
    (setMapping [⟨"a", none⟩, ⟨"b", some SystemColumn.in_quantity⟩] "a"
      (some SystemColumn.in_dt))[1]?
      = some ⟨"b", some SystemColumn.in_quantity⟩ :=
  (C6_setMapping_frame [⟨"a", none⟩, ⟨"b", some SystemColumn.in_quantity⟩] "a"
    (some SystemColumn.in_dt)).2.1 1 ⟨"b", some SystemColumn.in_quantity⟩
    rfl (by decide)

/-- C7 (counterexample): with two entries both targeting `in_dt` (duplicate
targets are representable in raw state), `removeMapping` nulls only the first
one, so a subsequent `validate` still sees `in_dt` as mapped — it is not in
`missingRequired` — contradicting the claim that validation reflects the
column as unmapped. -/
theorem C7_counterexample :
    removeMapping
        [⟨"a", some SystemColumn.in_dt⟩, ⟨"b", some SystemColumn.in_dt⟩]
        SystemColumn.in_dt
      = [⟨"a", none⟩, ⟨"b", some SystemColumn.in_dt⟩] ∧
    SystemColumn.in_dt ∉
      (validateMappings (removeMapping
        [⟨"a", some SystemColumn.in_dt⟩, ⟨"b", some SystemColumn.in_dt⟩]
        SystemColumn.in_dt)).missingRequired := by
  decide

/-- C7 (amended): provided every source-column name in the state is non-empty
and at most one entry targets X, `removeMapping state X` leaves no entry
targeting X — in particular a subsequent `validate` reports X missing when X is
required; and whenever no entry targets X the state is returned unchanged. -/
theorem C7_removeMapping (state : List ColumnMapping) (X : SystemColumn) :
    ((∀ m ∈ state, m.csvColumn ≠ "") →
      (state.filter (fun m => m.systemColumn == some X)).length ≤ 1 →
      (∀ m ∈ removeMapping state X, m.systemColumn ≠ some X) ∧
      (X ∈ getRequiredColumns →
        X ∈ (validateMappings (removeMapping state X)).missingRequired)) ∧
    ((∀ m ∈ state, m.systemColumn ≠ some X) → removeMapping state X = state) := by
  constructor
  · intro h1 h2
    have hmain : ∀ m ∈ removeMapping state X, m.systemColumn ≠ some X := by
      cases hfind : state.find? (fun m => m.systemColumn == some X) with
      | none =>
        have hnone : getMappedCsvColumn state X = none := by
          simp [getMappedCsvColumn, hfind]
        have hstate : removeMapping state X = state := by
          simp [removeMapping, hnone]
        rw [hstate]
        intro m hm
        have hx := List.find?_eq_none.mp hfind m hm
        simpa using hx
      | some m0 =>
        have hm0mem : m0 ∈ state := List.mem_of_find?_eq_some hfind
        have hm0X : m0.systemColumn = some X := by
          have hx := List.find?_some hfind
          simpa using hx
        have hname : (m0.csvColumn == "") = false :=
          beq_eq_false_iff_ne.mpr (h1 m0 hm0mem)
        have hsome : getMappedCsvColumn state X = some m0.csvColumn := by
          simp [getMappedCsvColumn, hfind, hname]
        have hstate : removeMapping state X = setMapping state m0.csvColumn none := by
          simp [removeMapping, hsome]
        rw [hstate]
        intro m' hm'
        obtain ⟨m, hmmem, rfl⟩ := List.mem_map.mp hm'
        by_cases hcsv : (m.csvColumn == m0.csvColumn) = true
        · rw [if_pos hcsv]
          simp
        · rw [if_neg hcsv]
          intro heq
          have hnem : m ≠ m0 := by
            intro hcontra
            rw [hcontra] at hcsv
            exact hcsv (beq_self_eq_true _)
          have hmf : m ∈ state.filter (fun m => m.systemColumn == some X) :=
            List.mem_filter.mpr ⟨hmmem, by simp [heq]⟩
          have hm0f : m0 ∈ state.filter (fun m => m.systemColumn == some X) :=
            List.mem_filter.mpr ⟨hm0mem, by simp [hm0X]⟩
          have htwo := two_le_length_of_mem_of_mem hmf hm0f hnem
          omega
    exact ⟨hmain, fun hreq => mem_missingRequired_of_unmapped _ X hreq hmain⟩
  · intro h
    have hfind : state.find? (fun m => m.systemColumn == some X) = none := by
      rw [List.find?_eq_none]
      intro m hm
      simpa using h m hm
    simp [removeMapping, getMappedCsvColumn, hfind]

/-- C7 witness: removing the single mapping for `in_dt` leaves nothing
targeting `in_dt`, and removal is a no-op on a state where `in_dt` is
unmapped. -/
theorem C7_witness :
    (∀ m ∈ removeMapping [⟨"a", some SystemColumn.in_dt⟩] SystemColumn.in_dt,
      m.systemColumn ≠ some SystemColumn.in_dt) ∧
    removeMapping [⟨"b", none⟩] SystemColumn.in_dt = [⟨"b", none⟩] :=
  ⟨((C7_removeMapping [⟨"a", some SystemColumn.in_dt⟩] SystemColumn.in_dt).1
      (by decide) (by decide)).1,
   (C7_removeMapping [⟨"b", none⟩] SystemColumn.in_dt).2 (by decide)⟩

/-- C9 (counterexample): when the input repeats a source-column name, the state
keeps one entry per occurrence, not one entry per distinct source column — the
input `["a","a"]` produces two entries named "a". -/
theorem C9_counterexample :
    ¬ (((initMappings ["a", "a"] none).filter
        (fun m => m.csvColumn == "a")).length = 1) := by
  decide

/-- C9 (amended): after a no-seed initialization and any sequence of
`setMapping`/`removeMapping` actions, the state's source-column sequence equals
the input sequence — one entry per input position, in input order; when the
input has no duplicates this is exactly one entry per distinct source
column. -/
theorem C9_one_entry_per_column (csvColumns : List String) (ops : List MappingOp) :
    (applyOps ops (initMappings csvColumns none)).map ColumnMapping.csvColumn
      = csvColumns ∧
    (csvColumns.Nodup → ∀ c ∈ csvColumns,
      ((applyOps ops (initMappings csvColumns none)).filter
        (fun m => m.csvColumn == c)).length = 1) := by
  have hproj : (applyOps ops (initMappings csvColumns none)).map
      ColumnMapping.csvColumn = csvColumns :=
    (applyOps_csvColumn_proj ops _).trans (initMappings_none_proj csvColumns)
  refine ⟨hproj, ?_⟩
  intro hnodup c hc
  have hcount : ((applyOps ops (initMappings csvColumns none)).filter
      (fun m => m.csvColumn == c)).length = List.count c csvColumns := by
    rw [← List.countP_eq_length_filter, List.count_eq_countP]
    conv_rhs => rw [← hproj]
    rw [List.countP_map]
    rfl
  rw [hcount]
  exact List.count_eq_one_of_mem hnodup hc

/-- C9 witness: on duplicate-free input `["a","b"]` and one `setMapping`
action, the state keeps exactly one entry named "a". -/
theorem C9_witness :
    ((applyOps [MappingOp.set "a" (some SystemColumn.in_dt)]
      (initMappings ["a", "b"] none)).filter
        (fun m => m.csvColumn == "a")).length = 1 :=
  (C9_one_entry_per_column ["a", "b"]
    [MappingOp.set "a" (some SystemColumn.in_dt)]).2 (by decide) "a" (by decide)

/-- C10 (code bug): at the failing input "constructor" the JavaScript lookup
`suggestions[normalized] || null` returns the inherited, truthy
`Object.prototype.constructor` — neither one of the 12 table values nor null —
contradicting the function's declared `SystemColumn | null` return type and
the repository's own prototype-pollution test intent. Everywhere an actual
system column is produced it is one of the 12 table values and never
`in_trans_type`, `in_unit_type`, `in_price_unit`, `in_cost_unit` or
`in_commission_total`, and the inherited escape happens only for inputs
normalizing to "constructor". -/
theorem C10_suggest_range_bug :
    suggestLookupJs "constructor" = JsSuggestResult.inherited ∧
    (∀ (s : String) (c : SystemColumn),
      suggestLookupJs s = JsSuggestResult.value c →
      c ≠ SystemColumn.in_trans_type ∧ c ≠ SystemColumn.in_unit_type ∧
      c ≠ SystemColumn.in_price_unit ∧ c ≠ SystemColumn.in_cost_unit ∧
      c ≠ SystemColumn.in_commission_total ∧ c ∈ suggestions.map Prod.snd) ∧
    (∀ s : String, suggestLookupJs s = JsSuggestResult.inherited →
      normalize s = "constructor") := by
  refine ⟨by decide, ?_, ?_⟩
  · intro s c h
    have hlook : suggestions.lookup (normalize s) = some c := by
      cases hx : suggestions.lookup (normalize s) with
      | none =>
        simp only [suggestLookupJs, hx] at h
        by_cases hcon : (normalize s == "constructor") = true
        · rw [if_pos hcon] at h
          cases h
        · rw [if_neg hcon] at h
          cases h
      | some c' =>
        simp only [suggestLookupJs, hx] at h
        cases h
        rfl
    have hmem : c ∈ suggestions.map Prod.snd := mem_snd_of_lookup_eq_some hlook
    have hall : ∀ v ∈ suggestions.map Prod.snd,
        v ≠ SystemColumn.in_trans_type ∧ v ≠ SystemColumn.in_unit_type ∧
        v ≠ SystemColumn.in_price_unit ∧ v ≠ SystemColumn.in_cost_unit ∧
        v ≠ SystemColumn.in_commission_total := by decide
    obtain ⟨h1, h2, h3, h4, h5⟩ := hall c hmem
    exact ⟨h1, h2, h3, h4, h5, hmem⟩
  · intro s h
    cases hx : suggestions.lookup (normalize s) with
    | none =>
      simp only [suggestLookupJs, hx] at h
      by_cases hcon : (normalize s == "constructor") = true
      · exact beq_iff_eq.mp hcon
      · rw [if_neg hcon] at h
        cases h
    | some c' =>
      simp only [suggestLookupJs, hx] at h
      cases h

/-- C10 witness: the value hit for "date" (`in_dt`) is among the table's
values and differs from all five never-suggested columns. -/
theorem C10_witness :
    SystemColumn.in_dt ≠ SystemColumn.in_trans_type ∧
    SystemColumn.in_dt ≠ SystemColumn.in_unit_type ∧
    SystemColumn.in_dt ≠ SystemColumn.in_price_unit ∧
    SystemColumn.in_dt ≠ SystemColumn.in_cost_unit ∧
    SystemColumn.in_dt ≠ SystemColumn.in_commission_total ∧
    SystemColumn.in_dt ∈ suggestions.map Prod.snd :=
  C10_suggest_range_bug.2.1 "date" SystemColumn.in_dt (by decide)

end Ayni
